import Mathlib

/-!
Verification of the Chrome browsing-history MCP tool
(`src/mcp/chrome-hist-tool.ts`), shallowly embedded in Lean.

The embedding models the tool's pure logic directly from the source:
platform-based path resolution, WSL detection, the temporary snapshot
copy with its `Symbol.dispose` cleanup, the SQL query over the `urls`
table (WHERE / ORDER BY DESC / LIMIT, with SQLite's semantics that a
negative LIMIT imposes no bound), the WebKit-epoch timestamp
conversion, and the response formatting.  Side-effecting operations
(file existence, copy, unlink, database open, query execution) are
modelled by threading an explicit filesystem state — a list of paths
present on disk — together with Boolean oracles in the environment
that say whether each fallible operation succeeds, exactly at the
points where the source can throw.
-/

namespace ChromeHist

/-- Value of `process.platform` as inspected by the source. -/
inductive Platform where
  | darwin
  | win32
  | linux
  | other (name : String)
deriving DecidableEq, Repr

/-- The `limit` input after zod parsing: absent (`undefined`), `NaN`, or a
numeric value (modelled as an integer; the source's `limit || 10` treats
`undefined`, `NaN` and `0` as falsy). -/
inductive LimitInput where
  | absent
  | nan
  | num (n : Int)
deriving DecidableEq, Repr

/-- One row of the `urls` table of the history database: `title` (text,
nullable), `url` (text), `last_visit_time` (64-bit integer, microseconds
since 1601-01-01T00:00:00Z). -/
structure UrlRow where
  title : Option String
  url : String
  last_visit_time : Int
deriving DecidableEq, Repr

/-- Environment of one tool invocation.  The first block mirrors what the
source reads from the process (`process.platform`, `os.homedir()`,
`os.release()`, `/proc/version`, the `cmd.exe` stdout, `os.tmpdir()`,
`Date.now()`, the local start-of-day timestamp, the parsed `limit`
input).  `rows` is the content of the snapshot's `urls` table.  The
final Booleans are oracles for the fallible filesystem / database calls:
`copyOk` for `fs.copyFileSync`, `copyLeavesDebris` for whether a failed
copy leaves a partially-written destination file (OS-dependent; Node
does not clean up after a failed `copyFileSync`), `unlinkOk` for
`fs.unlinkSync`, `openOk` for `new Database(..., readonly)`, `queryOk`
for `db.prepare(query).all(...)`. -/
structure Env where
  platform : Platform
  homeDir : String
  osRelease : String
  procVersion : Option String
  cmdUsername : Option String
  tmpdir : String
  now : Nat
  startOfTodayMs : Int
  limit : LimitInput
  rows : List UrlRow
  copyOk : Bool
  copyLeavesDebris : Bool
  unlinkOk : Bool
  openOk : Bool
  queryOk : Bool
deriving DecidableEq, Repr

/-- String containment, modelling JavaScript `String.prototype.includes`. -/
def includesStr (s pat : String) : Bool :=
  decide (List.IsInfix pat.data s.data)

/-- Character-wise lowercasing, modelling JavaScript
`String.prototype.toLowerCase` (the inputs at hand are ASCII). -/
def lowerStr (s : String) : String :=
  String.mk (s.data.map Char.toLower)

/-- WSL detection from the source (`isWSL`): false unless
`process.platform === 'linux'`; otherwise lowercase `os.release()` and
`/proc/version` and look for `"microsoft"` in either.  A failing
`fs.readFileSync('/proc/version')` aborts the `try` block before either
check, so the whole test yields false. -/
def isWSL (e : Env) : Bool :=
  if e.platform = Platform.linux then
    match e.procVersion with
    | none => false
    | some version =>
        includesStr (lowerStr e.osRelease) "microsoft" ||
        includesStr (lowerStr version) "microsoft"
  else false

/-- The dead helper `getWindowsUsername` from the source: runs
`cmd.exe /c "echo %USERNAME%"` and trims the output, or throws when the
subprocess fails.  (It is defined in the source file but never called.) -/
def getWindowsUsername (e : Env) : Except String String :=
  match e.cmdUsername with
  | some stdout => Except.ok stdout.trim
  | none => Except.error "WSLからWindowsのユーザー名を取得できませんでした。"

/-- Path resolution from the source (`getChromeHistoryPath`): switch on
`process.platform` with one fixed template per supported OS, else throw.
Note that the source consults neither `isWSL` nor `getWindowsUsername`
here. -/
def getChromeHistoryPath (e : Env) : Except String String :=
  match e.platform with
  | Platform.darwin =>
      Except.ok (e.homeDir ++ "/" ++ "Library/Application Support/Google/Chrome/Default/History")
  | Platform.win32 =>
      Except.ok (e.homeDir ++ "\\" ++ "AppData\\Local\\Google\\Chrome\\User Data\\Default\\History")
  | Platform.linux =>
      Except.ok (e.homeDir ++ "/" ++ ".config/google-chrome/Default/History")
  | Platform.other _ => Except.error "サポートされていないOSです"

/-- The temporary path allocated by `copyHistoryFile`:
`path.join(os.tmpdir(), `chrome_history_copy_${Date.now()}.sqlite`)`.
The interpolated `Date.now()` is the decimal rendering of the
millisecond clock; no other discriminator is used. -/
def tempPathOf (e : Env) : String :=
  e.tmpdir ++ "/chrome_history_copy_" ++ Nat.repr e.now ++ ".sqlite"

/-- The copy step of `copyHistoryFile`: `fs.copyFileSync(srcPath, tempPath)`.
On success the temporary file exists and the allocated path is returned.
On failure the raw I/O error propagates (the source wraps nothing and
removes nothing), and the destination may or may not have been partially
written, per the `copyLeavesDebris` oracle. -/
def copyHistoryFile (e : Env) (fs : List String) (srcPath : String) :
    Except String String × List String :=
  let tempPath := tempPathOf e
  if e.copyOk then
    (Except.ok tempPath, tempPath :: fs)
  else
    (Except.error "EIO: copy failed",
     if e.copyLeavesDebris then tempPath :: fs else fs)

/-- The `Symbol.dispose` body of the snapshot handle:
`if (fs.existsSync(tempPath)) fs.unlinkSync(tempPath)` — no try/catch,
so a failing unlink throws out of the dispose step. -/
def disposeTempFile (e : Env) (fs : List String) (tempPath : String) :
    Except String Unit × List String :=
  if tempPath ∈ fs then
    if e.unlinkOk then (Except.ok (), fs.erase tempPath)
    else (Except.error "EPERM: unlink failed", fs)
  else (Except.ok (), fs)

/-- Named constant from the source: milliseconds between 1601-01-01 and
1970-01-01 (`WEBKIT_EPOCH_OFFSET`). -/
def WEBKIT_EPOCH_OFFSET : Int := 11644473600000

/-- Lower bound of the query, from the source:
`(startOfToday.getTime() + WEBKIT_EPOCH_OFFSET) * 1000`. -/
def chromeTimeStart (e : Env) : Int :=
  (e.startOfTodayMs + WEBKIT_EPOCH_OFFSET) * 1000

/-- Unix-milliseconds to WebKit-microseconds, as in the source's
`chromeTimeStart` computation. -/
def toProprietary (unixMs : Int) : Int :=
  (unixMs + WEBKIT_EPOCH_OFFSET) * 1000

/-- WebKit-microseconds to Unix-milliseconds, as in the source's
`(row.last_visit_time / 1000) - WEBKIT_EPOCH_OFFSET` (the fractional
milliseconds are dropped when the value is fed to `new Date`, which for
the non-negative values at hand is flooring division). -/
def toUnixMs (raw : Int) : Int :=
  raw.fdiv 1000 - WEBKIT_EPOCH_OFFSET

/-- Effective LIMIT bound: the source passes `limit || 10`, so `undefined`,
`NaN` and `0` fall back to 10 and every other numeric value is passed
through unchanged. -/
def effectiveLimit : LimitInput → Int
  | LimitInput.absent => 10
  | LimitInput.nan => 10
  | LimitInput.num n => if n = 0 then 10 else n

/-- Descending order on visit time, the `ORDER BY last_visit_time DESC`
comparison. -/
def visitGE (a b : UrlRow) : Prop :=
  b.last_visit_time ≤ a.last_visit_time

instance : DecidableRel visitGE := fun a b =>
  inferInstanceAs (Decidable (b.last_visit_time ≤ a.last_visit_time))

instance : IsTotal UrlRow visitGE :=
  ⟨fun a b => le_total b.last_visit_time a.last_visit_time⟩

instance : IsTrans UrlRow visitGE :=
  ⟨fun _ _ _ h1 h2 => le_trans h2 h1⟩

/-- The SQL query of the source over the `urls` table:
`SELECT title, url, last_visit_time FROM urls WHERE last_visit_time > ?
ORDER BY last_visit_time DESC LIMIT ?`, bound to `chromeTimeStart` and
`limit || 10`.  Per SQLite semantics a negative LIMIT imposes no bound
(`LIMIT 0` cannot arise here since `0` is coerced to `10` beforehand). -/
def runHistoryQuery (e : Env) : List UrlRow :=
  let lim := effectiveLimit e.limit
  let hits := e.rows.filter (fun r => decide (chromeTimeStart e < r.last_visit_time))
  let ordered := List.insertionSort visitGE hits
  if lim < 0 then ordered else ordered.take lim.toNat

/-- Abstract stand-in for `Date.prototype.toLocaleString('ja-JP')`: the
claims do not depend on the rendered text, only on which millisecond
value is rendered. -/
def toLocaleStringJaJP (ms : Int) : String :=
  toString ms

/-- One formatted entry as built in the source's `results.map`: title with
the `'No Title'` fallback (`row.title || 'No Title'`, so `NULL` and the
empty string both fall back), the URL unchanged, and the visit time
converted to Unix milliseconds and rendered locally. -/
def formatRow (r : UrlRow) : String :=
  let title :=
    match r.title with
    | none => "No Title"
    | some t => if t = "" then "No Title" else t
  let time := toLocaleStringJaJP (r.last_visit_time.fdiv 1000 - WEBKIT_EPOCH_OFFSET)
  "## " ++ title ++ "\n  - URL: " ++ r.url ++ "\n  - Visited At: " ++ time ++ "\n"

/-- The joined rendering (`results.map(...).join('\n')`). -/
def formattedHistory (e : Env) : String :=
  String.intercalate "\n" ((runHistoryQuery e).map formatRow)

/-- The uniform tool-response shape: `content[0].text` and
`structuredContent.result`. -/
structure ToolResponse where
  text : String
  result : String
deriving DecidableEq, Repr

/-- The success return value of the handler: both fields carry
`formattedHistory || 'No browsing history found.'`. -/
def renderResponse (e : Env) : ToolResponse :=
  let f := formattedHistory e
  { text := if f = "" then "No browsing history found." else f,
    result := if f = "" then "No browsing history found." else f }

/-- A message aggregating a disposal error with the body's error, modelling
the `SuppressedError` produced when both the `using` body and the
disposal throw. -/
def suppressedMsg (disposeErr bodyErr : String) : String :=
  "SuppressedError: " ++ disposeErr ++ "; suppressed: " ++ bodyErr

/-- The tool handler, start to finish: resolve the history path (throwing
on an unsupported platform), check the source file exists (throwing with
a message naming the path), take the snapshot copy (`using`), open the
database (`using`, close modelled as infallible), run the query, format
the response.  On scope exit the `using` declarations dispose in reverse
order; an error thrown by the temp-file disposal replaces a successful
result, or is aggregated with the body's error as a `SuppressedError`.
Returns the handler's outcome paired with the final filesystem state. -/
def chromeHistHandler (e : Env) (fs : List String) :
    Except String ToolResponse × List String :=
  match getChromeHistoryPath e with
  | Except.error msg => (Except.error msg, fs)
  | Except.ok historyPath =>
    if historyPath ∈ fs then
      match copyHistoryFile e fs historyPath with
      | (Except.error cmsg, fs1) => (Except.error cmsg, fs1)
      | (Except.ok tempPath, fs1) =>
        let bodyResult : Except String ToolResponse :=
          if e.openOk then
            if e.queryOk then Except.ok (renderResponse e)
            else Except.error "QueryFailed: SqliteError"
          else Except.error "OpenFailed: SqliteError"
        match disposeTempFile e fs1 tempPath with
        | (Except.ok _, fs2) => (bodyResult, fs2)
        | (Except.error dmsg, fs2) =>
          match bodyResult with
          | Except.ok _ => (Except.error dmsg, fs2)
          | Except.error bmsg => (Except.error (suppressedMsg dmsg bmsg), fs2)
    else
      (Except.error ("Chromeの履歴ファイルが見つかりません: " ++ historyPath), fs)

/-! ### Concrete environments used by witnesses and counterexamples -/

/-- A row of the `urls` table whose visit time is `k` microseconds past the
WebKit encoding of the Unix epoch. -/
def rowT (k : Int) : UrlRow :=
  { title := some "Example", url := "https://example.com/",
    last_visit_time := (11644473600000 : Int) * 1000 + k }

/-- A macOS environment on the happy path: source present, copy, open,
query and unlink all succeed; three of the four rows lie above the
start-of-day bound. -/
def happyEnv : Env :=
  { platform := Platform.darwin, homeDir := "/Users/alice", osRelease := "23.0.0",
    procVersion := none, cmdUsername := none, tmpdir := "/tmp",
    now := 1728700000000, startOfTodayMs := 0, limit := LimitInput.absent,
    rows := [rowT 5, rowT 9, rowT 7, rowT (-3)],
    copyOk := true, copyLeavesDebris := false, unlinkOk := true,
    openOk := true, queryOk := true }

/-- The history path `getChromeHistoryPath` resolves for `happyEnv`. -/
def historyPathHappy : String :=
  "/Users/alice" ++ "/" ++ "Library/Application Support/Google/Chrome/Default/History"

/-- Filesystem in which `happyEnv`'s source history store exists. -/
def fsHappy : List String := [historyPathHappy]

/-- Eleven rows above the start-of-day bound, used to exhibit the behaviour
of a negative LIMIT. -/
def manyRows : List UrlRow :=
  (List.range 11).map (fun i => rowT (1 + (i : Int)))

/-! ### C1: timestamp round-trip -/

/-- C1: for every non-negative Unix-millisecond value `t`, converting to the
WebKit encoding via `raw = (t + 11644473600000) * 1000` and back via
`unixMs = (raw / 1000) - 11644473600000` yields `t` exactly; and for an
arbitrary non-negative microsecond raw value, the round trip the other
way is within 1 ms below the original (microsecond flooring). -/
theorem timestamp_roundtrip :
    (∀ t : Int, 0 ≤ t → toUnixMs (toProprietary t) = t) ∧
    (∀ raw : Int, 0 ≤ raw →
      toProprietary (toUnixMs raw) ≤ raw ∧
      raw - toProprietary (toUnixMs raw) < 1000) := by
  constructor
  · intro t _
    simp only [toUnixMs, toProprietary]
    rw [Int.mul_fdiv_cancel _ (by norm_num)]
    ring
  · intro raw _
    simp only [toUnixMs, toProprietary, WEBKIT_EPOCH_OFFSET]
    rw [Int.fdiv_eq_ediv _ (by norm_num)]
    omega

/-- Witness for C1 at concrete inputs: a millisecond timestamp survives the
round trip exactly, and a microsecond raw value with a 500 µs remainder
round-trips to within 1 ms. -/
theorem timestamp_roundtrip_witness :
    toUnixMs (toProprietary 1728700000000) = 1728700000000 ∧
    toProprietary (toUnixMs 13373173600000500) ≤ 13373173600000500 ∧
    13373173600000500 - toProprietary (toUnixMs 13373173600000500) < 1000 :=
  ⟨timestamp_roundtrip.1 1728700000000 (by decide),
   (timestamp_roundtrip.2 13373173600000500 (by decide)).1,
   (timestamp_roundtrip.2 13373173600000500 (by decide)).2⟩

/-! ### Decimal rendering is injective

The snapshot path embeds `Date.now()` through `Nat.repr`.  To reason
about path collisions we show `Nat.repr` is injective, by relating the
fuel-based `Nat.toDigitsCore` to a clean well-founded recursion and
reading the value back off the digit string. -/

/-- Fuel-free decimal digit list, most significant first. -/
def decDigits (n : Nat) : List Char :=
  if _h : n / 10 = 0 then [Nat.digitChar (n % 10)]
  else decDigits (n / 10) ++ [Nat.digitChar (n % 10)]
termination_by n
decreasing_by omega

/-- Numeric value of a digit character. -/
def charVal (c : Char) : Nat := c.toNat - 48

theorem charVal_digitChar (d : Nat) (h : d < 10) :
    charVal (Nat.digitChar d) = d := by
  interval_cases d <;> rfl

/-- Value of a digit string, most significant first. -/
def digitsVal (ds : List Char) : Nat :=
  ds.foldl (fun a c => a * 10 + charVal c) 0

theorem digitsVal_append_singleton (ds : List Char) (c : Char) :
    digitsVal (ds ++ [c]) = digitsVal ds * 10 + charVal c := by
  simp [digitsVal, List.foldl_append]

theorem digitsVal_decDigits (n : Nat) : digitsVal (decDigits n) = n := by
  induction n using decDigits.induct with
  | case1 n h =>
      rw [decDigits, dif_pos h]
      have h10 : n % 10 < 10 := Nat.mod_lt n (by norm_num)
      simp only [digitsVal, List.foldl_cons, List.foldl_nil, Nat.zero_mul, Nat.zero_add]
      rw [charVal_digitChar _ h10]
      omega
  | case2 n h ih =>
      rw [decDigits, dif_neg h, digitsVal_append_singleton, ih,
        charVal_digitChar _ (Nat.mod_lt n (by norm_num))]
      omega

theorem decDigits_inj {m n : Nat} (h : decDigits m = decDigits n) : m = n := by
  rw [← digitsVal_decDigits m, ← digitsVal_decDigits n, h]

theorem toDigitsCore_eq_decDigits :
    ∀ (fuel n : Nat) (acc : List Char), n < fuel →
      Nat.toDigitsCore 10 fuel n acc = decDigits n ++ acc := by
  intro fuel
  induction fuel with
  | zero => intro n acc h; omega
  | succ f ih =>
      intro n acc h
      by_cases hz : n / 10 = 0
      · simp only [Nat.toDigitsCore, hz, if_true]
        rw [decDigits, dif_pos hz]
        rfl
      · simp only [Nat.toDigitsCore, hz, if_false]
        rw [ih (n / 10) (Nat.digitChar (n % 10) :: acc) (by omega)]
        conv_rhs => rw [decDigits, dif_neg hz]
        rw [List.append_assoc]
        rfl

/-- The character data of `Nat.repr n` is exactly the digit list of `n`. -/
theorem repr_data_eq (n : Nat) : (Nat.repr n).data = decDigits n := by
  show ((Nat.toDigits 10 n).asString).data = decDigits n
  rw [Nat.toDigits, toDigitsCore_eq_decDigits (n + 1) n [] (Nat.lt_succ_self n)]
  simp [List.asString]

theorem natRepr_data_inj {m n : Nat}
    (h : (Nat.repr m).data = (Nat.repr n).data) : m = n :=
  decDigits_inj (by rwa [repr_data_eq, repr_data_eq] at h)

/-! ### C2: WSL host-identity resolution -/

/-- A WSL guest environment: Linux platform, kernel release and
`/proc/version` carrying the `microsoft` vendor signature, host shell
available. -/
def wslEnv : Env :=
  { platform := Platform.linux, homeDir := "/home/guest",
    osRelease := "5.15.167.4-microsoft-standard-WSL2",
    procVersion := some "Linux version 5.15.167.4-microsoft-standard-WSL2",
    cmdUsername := some "HostUser\r\n", tmpdir := "/tmp",
    now := 1728700000000, startOfTodayMs := 0, limit := LimitInput.absent,
    rows := [], copyOk := true, copyLeavesDebris := false, unlinkOk := true,
    openOk := true, queryOk := true }

/-- C2 (against the intent): on a WSL guest — where `isWSL` as defined in
the source file evaluates to `true` — `getChromeHistoryPath` still
returns the guest's own home-directory path, identically for every
possible outcome of the host-username lookup (including a failing one):
the resolution never consults `isWSL` or `getWindowsUsername`, never
builds a host-filesystem path, and never fails with the
identity-resolution error. -/
theorem wsl_detection_unused_in_path_resolution :
    isWSL wslEnv = true ∧
    ∀ u : Option String,
      getChromeHistoryPath { wslEnv with cmdUsername := u } =
        Except.ok ("/home/guest" ++ "/" ++ ".config/google-chrome/Default/History") :=
  ⟨by decide, fun _ => rfl⟩

/-! ### C6: snapshot path uniqueness -/

/-- Two distinct concurrent invocations in the same millisecond: same
process (same `os.tmpdir()`), same `Date.now()`, different request
payloads. -/
def envSameMsB : Env := { happyEnv with limit := LimitInput.num 5 }

/-- C6 counterexample: two distinct invocations whose `Date.now()` values
coincide (concurrent requests in the same millisecond) are allocated the
very same temporary path — the discriminator is the timestamp alone, so
concurrent collision is possible, contrary to the claim. -/
theorem snapshot_collision_counterexample :
    happyEnv ≠ envSameMsB ∧ tempPathOf happyEnv = tempPathOf envSameMsB :=
  ⟨by decide, rfl⟩

/-- C6 amended: the temporary path is determined by `os.tmpdir()` and the
`Date.now()` millisecond alone.  Within one process, two invocations
get the same path exactly when they observe the same millisecond:
equal timestamps collide, distinct timestamps give distinct paths. -/
theorem snapshot_path_discriminator (e1 e2 : Env) (ht : e1.tmpdir = e2.tmpdir) :
    (e1.now = e2.now → tempPathOf e1 = tempPathOf e2) ∧
    (e1.now ≠ e2.now → tempPathOf e1 ≠ tempPathOf e2) := by
  constructor
  · intro hn
    simp [tempPathOf, ht, hn]
  · intro hn he
    apply hn
    have hd := congrArg String.data he
    simp only [tempPathOf, String.data_append, List.append_assoc] at hd
    rw [ht] at hd
    have h1 := List.append_cancel_left hd
    have h2 := List.append_cancel_left h1
    exact natRepr_data_inj (List.append_cancel_right h2)

/-- Witness for C6's amended theorem: same millisecond gives the same path,
the next millisecond gives a different path. -/
theorem snapshot_path_discriminator_witness :
    tempPathOf happyEnv = tempPathOf envSameMsB ∧
    tempPathOf happyEnv ≠ tempPathOf { happyEnv with now := 1728700000001 } :=
  ⟨(snapshot_path_discriminator happyEnv envSameMsB rfl).1 rfl,
   (snapshot_path_discriminator happyEnv { happyEnv with now := 1728700000001 } rfl).2
     (by decide)⟩

/-! ### C4: default limit -/

/-- An invocation whose `limit` input is `-1`: not a positive integer, yet
truthy in JavaScript, so `limit || 10` passes it through. -/
def negLimitEnv : Env :=
  { happyEnv with limit := LimitInput.num (-1), rows := manyRows }

/-- C4 counterexample: with `limit = -1` (not a positive integer) the query
is *not* executed with the default limit of 10 — the `-1` reaches the
SQL `LIMIT`, which in SQLite removes the bound, and all 11 matching
rows come back. -/
theorem default_limit_counterexample :
    negLimitEnv.limit = LimitInput.num (-1) ∧
    ¬ (runHistoryQuery negLimitEnv).length ≤ 10 :=
  ⟨rfl, by decide⟩

/-- C4 amended: the default limit of 10 applies exactly to the inputs
`limit || 10` treats as falsy — absent, `NaN`, and `0` — and for those
the query returns at most 10 entries.  Other non-positive values are
passed through to `LIMIT` unchanged (a negative value removes the
bound, see the counterexample). -/
theorem default_limit (e : Env)
    (h : e.limit = LimitInput.absent ∨ e.limit = LimitInput.nan ∨
      e.limit = LimitInput.num 0) :
    effectiveLimit e.limit = 10 ∧ (runHistoryQuery e).length ≤ 10 := by
  have hl : effectiveLimit e.limit = 10 := by
    rcases h with h | h | h <;> simp [h, effectiveLimit]
  refine ⟨hl, ?_⟩
  simp only [runHistoryQuery, hl]
  rw [if_neg (by norm_num)]
  exact (List.length_take_le _ _).trans (by norm_num)

/-- Witness for C4's amended theorem: the absent-limit invocation returns
at most 10 entries. -/
theorem default_limit_witness :
    effectiveLimit happyEnv.limit = 10 ∧ (runHistoryQuery happyEnv).length ≤ 10 :=
  default_limit happyEnv (Or.inl rfl)

/-! ### C5: bounded limit, filter bound, descending order -/

/-- An invocation with `limit = 3`. -/
def limit3Env : Env := { happyEnv with limit := LimitInput.num 3 }

/-- C5: with `limit = N`, `N > 0`, the query returns at most `N` entries,
every returned entry's raw visit time is strictly above the encoded
start of the current local day, and adjacent entries are ordered by
visit time descending. -/
theorem bounded_limit (e : Env) (N : Int)
    (hl : e.limit = LimitInput.num N) (hN : 0 < N) :
    (runHistoryQuery e).length ≤ N.toNat ∧
    (∀ r ∈ runHistoryQuery e, chromeTimeStart e < r.last_visit_time) ∧
    List.Chain' (fun a b => b.last_visit_time ≤ a.last_visit_time)
      (runHistoryQuery e) := by
  have hEff : effectiveLimit e.limit = N := by
    rw [hl]
    simp only [effectiveLimit]
    rw [if_neg (by omega : ¬ N = 0)]
  have hq : runHistoryQuery e =
      (List.insertionSort visitGE
        (e.rows.filter (fun r => decide (chromeTimeStart e < r.last_visit_time)))).take
        N.toNat := by
    simp only [runHistoryQuery, hEff]
    rw [if_neg (by omega)]
  refine ⟨?_, ?_, ?_⟩
  · rw [hq]
    exact List.length_take_le _ _
  · intro r hr
    rw [hq] at hr
    have hr2 := List.mem_of_mem_take hr
    have hr3 := (List.mem_insertionSort visitGE).1 hr2
    exact of_decide_eq_true (List.mem_filter.1 hr3).2
  · rw [hq]
    have hs := List.sorted_insertionSort visitGE
      (e.rows.filter (fun r => decide (chromeTimeStart e < r.last_visit_time)))
    exact (List.Pairwise.sublist (List.take_sublist _ _) hs).chain'

/-- Witness for C5 at `limit = 3` on the four-row store. -/
theorem bounded_limit_witness :
    (runHistoryQuery limit3Env).length ≤ (3 : Int).toNat ∧
    (∀ r ∈ runHistoryQuery limit3Env,
      chromeTimeStart limit3Env < r.last_visit_time) ∧
    List.Chain' (fun a b => b.last_visit_time ≤ a.last_visit_time)
      (runHistoryQuery limit3Env) :=
  bounded_limit limit3Env 3 rfl (by norm_num)

/-! ### C9: missing source store -/

/-- C9: when the resolved source path does not exist, the handler fails
with the source-not-found message — which embeds the resolved path —
and the filesystem is untouched: no copy is attempted and no temporary
file is created. -/
theorem source_not_found (e : Env) (fs : List String) (p : String)
    (hres : getChromeHistoryPath e = Except.ok p) (hmem : p ∉ fs) :
    (chromeHistHandler e fs).1 =
      Except.error ("Chromeの履歴ファイルが見つかりません: " ++ p) ∧
    (chromeHistHandler e fs).2 = fs := by
  constructor <;> simp [chromeHistHandler, hres, hmem]

/-- Witness for C9: `happyEnv` against an empty filesystem. -/
theorem source_not_found_witness :
    (chromeHistHandler happyEnv []).1 =
      Except.error ("Chromeの履歴ファイルが見つかりません: " ++ historyPathHappy) ∧
    (chromeHistHandler happyEnv []).2 = ([] : List String) :=
  source_not_found happyEnv [] historyPathHappy rfl (by decide)

/-! ### C10: disposing an already-removed snapshot -/

/-- C10: the `Symbol.dispose` body checks existence before unlinking, so
disposing a handle whose file is already gone performs no filesystem
action and raises no error — for any state of the unlink oracle. -/
theorem dispose_absent_file_noop (e : Env) (fs : List String) (t : String)
    (h : t ∉ fs) :
    disposeTempFile e fs t = (Except.ok (), fs) := by
  simp [disposeTempFile, h]

/-- Witness for C10: disposing `happyEnv`'s temp path on an empty
filesystem is a no-op. -/
theorem dispose_absent_file_noop_witness :
    disposeTempFile happyEnv [] (tempPathOf happyEnv) = (Except.ok (), ([] : List String)) :=
  dispose_absent_file_noop happyEnv [] (tempPathOf happyEnv) (by decide)

/-! ### C3: cleanup on scope exit -/

/-- A happy-path invocation whose final unlink fails. -/
def unlinkFailEnv : Env := { happyEnv with unlinkOk := false }

/-- C3 counterexample: the dispose body has no try/catch, so when the
unlink fails after a fully successful query, the error thrown from
disposal replaces the successful result — the handler's outcome is the
unlink error, contradicting "a failure of that deletion is never
escalated". -/
theorem cleanup_escalation_counterexample :
    unlinkFailEnv.openOk = true ∧ unlinkFailEnv.queryOk = true ∧
    (chromeHistHandler unlinkFailEnv fsHappy).1 =
      Except.error "EPERM: unlink failed" :=
  ⟨rfl, rfl, rfl⟩

/-- C3 amended: whenever the snapshot copy was created, on scope exit the
temporary file is deleted if still present — whether the query succeeds
or an error propagates from deeper calls — *provided the unlink
succeeds*; but a deletion failure is escalated: it propagates out of
disposal and turns an otherwise-successful query into a failure. -/
theorem cleanup_on_exit (e : Env) (fs : List String) (p : String)
    (hres : getChromeHistoryPath e = Except.ok p)
    (hmem : p ∈ fs)
    (hcopy : e.copyOk = true) :
    (e.unlinkOk = true → (chromeHistHandler e fs).2 = fs) ∧
    (e.unlinkOk = false → e.openOk = true → e.queryOk = true →
      (chromeHistHandler e fs).1 = Except.error "EPERM: unlink failed") := by
  constructor
  · intro hu
    simp [chromeHistHandler, copyHistoryFile, disposeTempFile, hres, hmem,
      hcopy, hu]
  · intro hu ho hq
    simp [chromeHistHandler, copyHistoryFile, disposeTempFile, hres, hmem,
      hcopy, hu, ho, hq]

/-- Witness for C3's amended theorem: on the happy path the source file is
the only thing left on disk afterwards — the temporary copy is gone. -/
theorem cleanup_on_exit_witness :
    (chromeHistHandler happyEnv fsHappy).2 = fsHappy :=
  (cleanup_on_exit happyEnv fsHappy historyPathHappy rfl (by decide) rfl).1 rfl

/-! ### C8: copy failure -/

/-- A copy failure that leaves a partially-written destination file. -/
def copyFailEnv : Env :=
  { happyEnv with copyOk := false, copyLeavesDebris := true }

/-- C8 counterexample: when the byte copy fails, the raw I/O error
propagates and the partially-written temporary file is *not* removed —
it is still on disk after the handler returns, contradicting the
removal clause of the claim. -/
theorem copy_failure_counterexample :
    (chromeHistHandler copyFailEnv fsHappy).1 = Except.error "EIO: copy failed" ∧
    tempPathOf copyFailEnv ∈ (chromeHistHandler copyFailEnv fsHappy).2 :=
  ⟨rfl, by decide⟩

/-- C8 amended: a failing copy makes the operation fail with the copy
error, but no cleanup of the destination is attempted before the error
propagates: the snapshot handle (whose disposer would unlink the path)
is only constructed after a successful copy, so whatever the failed
copy left behind remains on disk. -/
theorem copy_failure_no_cleanup (e : Env) (fs : List String) (p : String)
    (hres : getChromeHistoryPath e = Except.ok p) (hmem : p ∈ fs)
    (hcopy : e.copyOk = false) :
    (chromeHistHandler e fs).1 = Except.error "EIO: copy failed" ∧
    (chromeHistHandler e fs).2 =
      (if e.copyLeavesDebris then tempPathOf e :: fs else fs) := by
  constructor <;> simp [chromeHistHandler, copyHistoryFile, hres, hmem, hcopy]

/-- Witness for C8's amended theorem at `copyFailEnv`. -/
theorem copy_failure_no_cleanup_witness :
    (chromeHistHandler copyFailEnv fsHappy).1 = Except.error "EIO: copy failed" ∧
    (chromeHistHandler copyFailEnv fsHappy).2 =
      (if copyFailEnv.copyLeavesDebris then tempPathOf copyFailEnv :: fsHappy
       else fsHappy) :=
  copy_failure_no_cleanup copyFailEnv fsHappy historyPathHappy rfl (by decide) rfl

/-! ### C7: failures at the tool boundary -/

/-- An invocation on an unsupported platform. -/
def unsupportedEnv : Env :=
  { happyEnv with platform := Platform.other "freebsd" }

/-- C7 counterexample: the handler contains no try/catch, so a propagated
failure leaves the handler as a structural error — here the
unsupported-platform failure — rather than being converted into the
standard response shape with the message in `text` and
`structuredContent.result`. -/
theorem error_shape_counterexample :
    (chromeHistHandler unsupportedEnv fsHappy).1 =
      Except.error "サポートされていないOSです" := rfl

/-- C7 amended: failures are *not* caught inside this repository's tool
handler — they propagate as thrown errors (e.g. the unsupported-platform
failure shown here), to be handled by the surrounding MCP SDK; it is
only the success path that produces the uniform shape, in which `text`
and `structuredContent.result` always carry the same string. -/
theorem tool_boundary_behavior (e : Env) (fs : List String) :
    (∀ r, (chromeHistHandler e fs).1 = Except.ok r → r.text = r.result) ∧
    (∀ s, e.platform = Platform.other s →
      (chromeHistHandler e fs).1 = Except.error "サポートされていないOSです") := by
  constructor
  · intro r hr
    unfold chromeHistHandler at hr
    repeat' split at hr
    all_goals simp_all [renderResponse]
    subst hr
    rfl
  · intro s hs
    simp [chromeHistHandler, getChromeHistoryPath, hs]

/-- Witness for C7's amended theorem: the happy path's response has equal
`text` and `result`, and the unsupported platform propagates its error. -/
theorem tool_boundary_behavior_witness :
    (renderResponse happyEnv).text = (renderResponse happyEnv).result ∧
    (chromeHistHandler unsupportedEnv []).1 =
      Except.error "サポートされていないOSです" :=
  ⟨(tool_boundary_behavior happyEnv fsHappy).1 (renderResponse happyEnv) rfl,
   (tool_boundary_behavior unsupportedEnv []).2 "freebsd" rfl⟩

end ChromeHist
